import Mathlib

/-!
Shallow embedding of `src/index.ts` of express-openapi-validator (v3.14.1):
the `OpenApiValidator` class — option validation/normalization/defaulting in
the constructor (lines 33-64), `installMiddleware` (lines 99-124),
`installRequestValidationMiddleware` (lines 185-211),
`installOperationHandlers` (lines 239-281), `validateOptions` (lines 283-334)
and `normalizeOptions` (lines 336-348).

JavaScript values are embedded per option field with just enough structure to
reproduce the `typeof`/`Array.isArray` checks and truthiness tests the source
performs. `Option` models `undefined`/`null` (absent); for string-valued
fields a present empty string is falsy, tracked by explicit truthiness
functions. Throwing (`throw ono(...)`, `throw Error(...)`) is embedded as
`Except.error` carrying the message string. Side effects that carry no data
(deprecation warnings, the express `app.use`/`app.param` calls) are modelled
as labels/log entries.
-/

/-- Shape tag for a JavaScript value checked with `typeof`/`Array.isArray`:
a plain (non-array) object, an array, or anything else (with its truthiness,
e.g. a nonempty string or nonzero number is truthy). -/
inductive JsObj where
  | objV : JsObj
  | arrV : JsObj
  | otherV : Bool → JsObj
deriving DecidableEq, Repr

/-- JS truthiness of a `JsObj` value: objects and arrays are always truthy. -/
def JsObj.truthy : JsObj → Bool
  | .objV => true
  | .arrV => true
  | .otherV b => b

/-- Truthiness of a possibly-absent `JsObj` (undefined/null is falsy). -/
def jsOptTruthy : Option JsObj → Bool
  | none => false
  | some v => v.truthy

/-- `unknownFormats`: boolean, string, or an array of format names. -/
inductive UnknownFormats where
  | boolV : Bool → UnknownFormats
  | strV : String → UnknownFormats
  | listV : List String → UnknownFormats
deriving DecidableEq, Repr

/-- `ValidateRequestOpts` of framework/types. -/
structure ValidateRequestOpts where
  allowUnknownQueryParameters : Option Bool
deriving DecidableEq, Repr

/-- `ValidateResponseOpts` of framework/types. -/
structure ValidateResponseOpts where
  removeAdditional : Option Bool
deriving DecidableEq, Repr

/-- `ValidateSecurityOpts` of framework/types: `{ handlers?: ... }`. -/
structure ValidateSecurityOpts where
  handlers : Option JsObj
deriving DecidableEq, Repr

/-- `validateRequests`: boolean or a `ValidateRequestOpts` object. -/
inductive ValidateRequests where
  | boolV : Bool → ValidateRequests
  | optsV : ValidateRequestOpts → ValidateRequests
deriving DecidableEq, Repr

/-- `validateResponses`: boolean or a `ValidateResponseOpts` object. -/
inductive ValidateResponses where
  | boolV : Bool → ValidateResponses
  | optsV : ValidateResponseOpts → ValidateResponses
deriving DecidableEq, Repr

/-- `validateSecurity`: boolean or a `ValidateSecurityOpts` object. -/
inductive ValidateSecurity where
  | boolV : Bool → ValidateSecurity
  | optsV : ValidateSecurityOpts → ValidateSecurity
deriving DecidableEq, Repr

/-- `fileUploader`: boolean or a multer options object (kept raw). -/
inductive FileUploader where
  | boolV : Bool → FileUploader
  | rawV : JsObj → FileUploader
deriving DecidableEq, Repr

/-- `operationHandlers`: boolean or a base directory path string. -/
inductive OperationHandlers where
  | boolV : Bool → OperationHandlers
  | strV : String → OperationHandlers
deriving DecidableEq, Repr

/-- `validateFormats`: the ajv format mode, `'fast' | 'full' | false`. -/
inductive ValidateFormats where
  | fastV : ValidateFormats
  | fullV : ValidateFormats
  | falseV : ValidateFormats
deriving DecidableEq, Repr

/-- The `mode` of the `$refParser` option. -/
inductive RefMode where
  | bundle : RefMode
  | dereference : RefMode
deriving DecidableEq, Repr

/-- The `$refParser` option object. -/
structure RefParserOpts where
  mode : RefMode
deriving DecidableEq, Repr

/-- `OpenApiValidatorOpts`: the options record the constructor receives and
mutates. `apiSpec` is kept as its truthiness only (the document itself is not
consumed by the code under study). `refParser` embeds the source field
`$refParser` (the dollar sign is not a legal Lean identifier character). -/
structure OpenApiValidatorOpts where
  apiSpec : Bool
  unknownFormats : Option UnknownFormats := none
  coerceTypes : Option Bool := none
  validateRequests : Option ValidateRequests := none
  validateResponses : Option ValidateResponses := none
  validateSecurity : Option ValidateSecurity := none
  securityHandlers : Option JsObj := none
  multerOpts : Option JsObj := none
  fileUploader : Option FileUploader := none
  refParser : Option RefParserOpts := none
  operationHandlers : Option OperationHandlers := none
  validateFormats : Option ValidateFormats := none
deriving DecidableEq, Repr

/-- Truthiness of the `validateSecurity` option value. -/
def vsTruthy : Option ValidateSecurity → Bool
  | none => false
  | some (.boolV b) => b
  | some (.optsV _) => true

/-- Truthiness of the `validateRequests` option value. -/
def vreqTruthy : Option ValidateRequests → Bool
  | none => false
  | some (.boolV b) => b
  | some (.optsV _) => true

/-- Truthiness of the `validateResponses` option value. -/
def vrespTruthy : Option ValidateResponses → Bool
  | none => false
  | some (.boolV b) => b
  | some (.optsV _) => true

/-- Truthiness of the `fileUploader` option value. -/
def fuTruthy : Option FileUploader → Bool
  | none => false
  | some (.boolV b) => b
  | some (.rawV v) => v.truthy

/-- Truthiness of the `operationHandlers` option value (an empty path string
is falsy in JS). -/
def ohTruthy : Option OperationHandlers → Bool
  | none => false
  | some (.boolV b) => b
  | some (.strV s) => !s.isEmpty

/-- The `typeof x !== 'object' || Array.isArray(x)` test on a present value
(lines 288-291 and 307): true exactly when the value is not a plain object. -/
def notPlainObject : JsObj → Bool
  | .objV => false
  | .arrV => true
  | .otherV _ => true

/-- Lines 319-333: the `unknownFormats` typing check. A boolean must be
`true`; a string must be `'ignore'` (the `!Array.isArray` conjunct is vacuous
when `typeof` is `'string'`); arrays and absence pass. -/
def unknownFormatsCheck : Option UnknownFormats → Except String Unit
  | some (.boolV b) =>
    if !b then
      .error "unknownFormats must contain an array of unknownFormats, 'ignore' or true"
    else .ok ()
  | some (.strV s) =>
    if s != "ignore" then
      .error "unknownFormats must contain an array of unknownFormats, 'ignore' or true"
    else .ok ()
  | _ => .ok ()

/-- `validateOptions` (lines 283-334). Each `throw ono(...)` becomes
`Except.error` with the thrown message; the deprecation warnings (lines
294-297, 310) are side effects carrying no data and are omitted. -/
def validateOptions (o : OpenApiValidatorOpts) : Except String Unit :=
  if !o.apiSpec then .error "apiSpec required"
  else if (match o.securityHandlers with
           | some sh => notPlainObject sh
           | none => false) then
    .error "securityHandlers must be an object or undefined"
  else if jsOptTruthy o.securityHandlers && vsTruthy o.validateSecurity then
    .error "securityHandlers and validateSecurity may not be used together. Use validateSecurities.handlers to specify handlers."
  else if (match o.multerOpts with
           | some mo => notPlainObject mo
           | none => false) then
    .error "multerOpts must be an object or undefined"
  else if jsOptTruthy o.multerOpts && fuTruthy o.fileUploader then
    .error "multerOpts and fileUploader may not be used together. Use fileUploader to specify upload options."
  else unknownFormatsCheck o.unknownFormats

/-- `normalizeOptions` (lines 336-348): a truthy deprecated `securityHandlers`
moves into `validateSecurity.handlers` and is deleted; a truthy deprecated
`multerOpts` moves into `fileUploader` and is deleted. -/
def normalizeOptions (o : OpenApiValidatorOpts) : OpenApiValidatorOpts :=
  let o :=
    if jsOptTruthy o.securityHandlers then
      { o with
        validateSecurity := some (.optsV ⟨o.securityHandlers⟩),
        securityHandlers := none }
    else o
  if jsOptTruthy o.multerOpts then
    { o with
      fileUploader := o.multerOpts.map .rawV,
      multerOpts := none }
  else o

/-- Line 53-57: a boolean `true` becomes `{ allowUnknownQueryParameters: false }`. -/
def normalizeValidateRequests : Option ValidateRequests → Option ValidateRequests
  | some (.boolV true) => some (.optsV ⟨some false⟩)
  | v => v

/-- Line 47-51: a boolean `true` becomes `{ removeAdditional: false }`. -/
def normalizeValidateResponses : Option ValidateResponses → Option ValidateResponses
  | some (.boolV true) => some (.optsV ⟨some false⟩)
  | v => v

/-- Line 59-61: a boolean `true` becomes the empty options object. -/
def normalizeValidateSecurity : Option ValidateSecurity → Option ValidateSecurity
  | some (.boolV true) => some (.optsV ⟨none⟩)
  | v => v

/-- Lines 37-61 of the constructor: per-field `== null` defaulting followed by
the boolean-to-object normalizations. Line 37 reads
`if (options.unknownFormats == null) options.unknownFormats === true;` —
a `===` comparison whose result is discarded, not an assignment — so the
`unknownFormats` field is left untouched here. -/
def applyDefaults (o : OpenApiValidatorOpts) : OpenApiValidatorOpts :=
  { o with
    coerceTypes := some (o.coerceTypes.getD true),
    validateRequests :=
      normalizeValidateRequests (some (o.validateRequests.getD (.boolV true))),
    validateResponses :=
      normalizeValidateResponses (some (o.validateResponses.getD (.boolV false))),
    validateSecurity :=
      normalizeValidateSecurity (some (o.validateSecurity.getD (.boolV true))),
    fileUploader := some (o.fileUploader.getD (.rawV .objV)),
    refParser := some (o.refParser.getD ⟨.bundle⟩),
    operationHandlers := some (o.operationHandlers.getD (.boolV false)),
    validateFormats := some (o.validateFormats.getD .fastV) }

/-- The `OpenApiValidator` constructor (lines 33-64): validate the raw
options, normalize the deprecated fields, then apply defaults; the resulting
record is stored as `this.options`. A throw anywhere yields `Except.error`. -/
def OpenApiValidator.construct (options : OpenApiValidatorOpts) :
    Except String OpenApiValidatorOpts :=
  match validateOptions options with
  | .error e => .error e
  | .ok _ => .ok (applyDefaults (normalizeOptions options))

/-- Whether an `Except` result is an error (a throw in the source). -/
def isErr : Except String α → Bool
  | .error _ => true
  | .ok _ => false

/-- The `securitySchemes` object of the api document's `components`, when
both exist. -/
structure Components where
  securitySchemes : Option JsObj
deriving DecidableEq, Repr

/-- The parts of the loaded api document that `installMiddleware` inspects. -/
structure ApiDoc where
  components : Option Components
deriving DecidableEq, Repr

/-- `context.apiDoc.components?.securitySchemes` (lines 108-109): optional
chaining through a possibly-absent `components`. -/
def securitySchemesOf (doc : ApiDoc) : Option JsObj :=
  doc.components.bind (fun c => c.securitySchemes)

/-- A label for each middleware-installation step of `installMiddleware`. -/
inductive Mw where
  | pathParams : Mw
  | metadata : Mw
  | multipart : Mw
  | security : Mw
  | requestValidation : Mw
  | responseValidation : Mw
  | operationHandlers : Mw
deriving DecidableEq, Repr

/-- `installMiddleware` (lines 99-124), as the ordered sequence of
installation steps it performs: path-param overrides and the metadata
middleware unconditionally, then multipart, security, request validation,
response validation and operation handlers, each guarded exactly as in the
source (`this.options` here is the record the constructor produced). -/
def installMiddleware (opts : OpenApiValidatorOpts) (doc : ApiDoc) : List Mw :=
  [Mw.pathParams, Mw.metadata]
  ++ (if fuTruthy opts.fileUploader then [Mw.multipart] else [])
  ++ (if vsTruthy opts.validateSecurity && jsOptTruthy (securitySchemesOf doc) then
        [Mw.security] else [])
  ++ (if vreqTruthy opts.validateRequests then [Mw.requestValidation] else [])
  ++ (if vrespTruthy opts.validateResponses then [Mw.responseValidation] else [])
  ++ (if ohTruthy opts.operationHandlers then [Mw.operationHandlers] else [])

/-- The full installation order of the seven middleware kinds. -/
def middlewareOrder : List Mw :=
  [Mw.pathParams, Mw.metadata, Mw.multipart, Mw.security,
   Mw.requestValidation, Mw.responseValidation, Mw.operationHandlers]

/-- The destructuring `const { allowUnknownQueryParameters } =
<ValidateRequestOpts>validateRequests` (lines 195-197): reading the property
off a boolean yields `undefined`; off the options object it yields the stored
field. (Destructuring `undefined` itself would throw in JS, but this code
only runs when `validateRequests` is truthy.) -/
def allowUnknownQueryParametersOf : Option ValidateRequests → Option Bool
  | some (.optsV o) => o.allowUnknownQueryParameters
  | _ => none

/-- The argument record handed to `new middlewares.RequestValidator`
(lines 198-206). -/
structure RequestValidatorArgs where
  nullable : Bool
  coerceTypes : Option Bool
  removeAdditional : Bool
  useDefaults : Bool
  unknownFormats : Option UnknownFormats
  allowUnknownQueryParameters : Option Bool
  format : Option ValidateFormats
deriving DecidableEq, Repr

/-- `installRequestValidationMiddleware` (lines 185-211), as the
`RequestValidator` construction arguments it produces from `this.options`. -/
def installRequestValidationMiddleware (opts : OpenApiValidatorOpts) :
    RequestValidatorArgs :=
  { nullable := true
    coerceTypes := opts.coerceTypes
    removeAdditional := false
    useDefaults := true
    unknownFormats := opts.unknownFormats
    allowUnknownQueryParameters :=
      allowUnknownQueryParametersOf opts.validateRequests
    format := opts.validateFormats }

/-- A namespace object of handler functions: export name to handler.
Handlers are opaque (numbered); a present entry is a truthy value. -/
structure Ns where
  entries : List (String × Nat)
deriving DecidableEq, Repr

/-- Property lookup on a namespace object: `undefined` when absent. -/
def Ns.get (ns : Ns) (k : String) : Option Nat :=
  (ns.entries.find? (fun e => e.1 == k)).map (fun e => e.2)

/-- A loadable handler module: its top-level exports keyed by operation id,
and its `default` export when that is an object (`none` = no usable
`default`, i.e. property access on it would be on `undefined`). -/
structure HandlerModule where
  top : Ns
  defaultExport : Option Ns
deriving DecidableEq, Repr

/-- The `require` environment: which module each path resolves to. `none`
means `require` throws (module not found). -/
def ModuleEnv := String → Option HandlerModule

/-- An operation's schema fields read by `installOperationHandlers`
(lines 247-248). Absent extensions are `none`; a present empty string is
falsy in the `||` and `&&` tests, which the truthiness functions track. -/
structure RouteSchema where
  xEovOperationId : Option String := none
  operationId : Option String := none
  xEovOperationHandler : Option String := none
deriving DecidableEq, Repr

/-- One entry of `context.routes` as consumed by `installOperationHandlers`
(line 246). -/
structure RouteEntry where
  expressRoute : String
  method : String
  schema : RouteSchema
deriving DecidableEq, Repr

/-- `method.toLowerCase()` (line 278): character-wise ASCII lowering,
written structurally so concrete runs evaluate in the kernel. -/
def jsToLower (s : String) : String := ⟨s.data.map Char.toLower⟩

/-- JS truthiness of a possibly-absent string (empty string is falsy). -/
def strTruthy : Option String → Bool
  | none => false
  | some s => !s.isEmpty

/-- Line 247: `schema['x-eov-operation-id'] || schema['operationId']` —
the extension value wins whenever it is truthy. -/
def oIdOf (s : RouteSchema) : Option String :=
  if strTruthy s.xEovOperationId then s.xEovOperationId else s.operationId

/-- `path.join(this.options.operationHandlers, baseName)` (line 264), for the
simple relative segments the handler option carries. -/
def pathJoin (a b : String) : String := a ++ "/" ++ b

/-- The memoization table `tmpModules` (line 243): module path to the stored
value, which is a namespace object or — transiently, after a failed
default-export fallback — `undefined` (`none`). Assignment prepends; lookup
takes the most recent binding. -/
def TmpMap := List (String × Option Ns)

/-- `tmpModules[modulePath]` as a property read: `none` when the key was
never assigned. -/
def tmpGet (tmp : TmpMap) (k : String) : Option (Option Ns) :=
  (List.find? (fun e => e.1 == k) tmp).map (fun e => e.2)

/-- `tmpModules[modulePath] = v`. -/
def tmpSet (tmp : TmpMap) (k : String) (v : Option Ns) : TmpMap :=
  (k, v) :: tmp

/-- Truthiness of `tmpModules[modulePath]` (line 265): false when the key is
unassigned or holds `undefined`. -/
def tmpTruthy (tmp : TmpMap) (k : String) : Bool :=
  match tmpGet tmp k with
  | some (some _) => true
  | _ => false

/-- Lines 266-270: the value memoized right after `require`: the module
itself when its top-level exports contain the operation id, otherwise the
module's `default` export. -/
def storedVal (m : HandlerModule) (oid : String) : Option Ns :=
  if (m.top.get oid).isSome then some m.top else m.defaultExport

/-- Line 250-252: the error thrown for an operation id without a handler
reference (the stray `]` without its `[` is in the source string). -/
def msgMissingHandler (r : RouteEntry) : String :=
  "found x-eov-operation-id for route " ++ r.method ++ " - " ++ r.expressRoute
    ++ "]. x-eov-operation-handler required."

/-- Line 254-257: the error thrown for a handler reference without an
operation id. -/
def msgMissingId (r : RouteEntry) : String :=
  "found x-eov-operation-handler for route [" ++ r.method ++ " - "
    ++ r.expressRoute ++ "]. operationId or x-eov-operation-id required."

/-- Line 273-277: the error thrown when the memoized namespace lacks the
operation id. -/
def msgHandlerNotFound (oid modulePath : String) : String :=
  "Could not find 'x-eov-operation-handler' with id " ++ oid ++ " in module '"
    ++ modulePath ++ "'. Make sure operation '" ++ oid
    ++ "' defined in your API spec exists as a handler function in '"
    ++ modulePath ++ "'."

/-- The error `require` throws when the module path does not resolve
(line 266). -/
def msgCannotFindModule (modulePath : String) : String :=
  "Cannot find module '" ++ modulePath ++ "'"

/-- The TypeError raised by `tmpModules[modulePath][oId]` (line 272) when the
memoized value is `undefined` — the engine's message names the property being
read, not the module path. -/
def msgTypeError (oid : String) : String :=
  "TypeError: Cannot read property '" ++ oid ++ "' of undefined"

/-- A handler registration `app[method.toLowerCase()](expressRoute, fn)`
(line 278): lower-cased method, express route, handler. -/
def Reg := String × String × Nat
deriving instance DecidableEq, Repr for Reg

/-- Lines 265-271: the memoization-aware load step. When
`tmpModules[modulePath]` is truthy nothing happens; otherwise the module is
`require`d (an unresolvable path throws) and the post-fallback value is
stored. The second component logs the paths actually `require`d in the
step. -/
def loadStep (env : ModuleEnv) (tmp : TmpMap) (modulePath oid : String) :
    Except String (TmpMap × List String) :=
  if tmpTruthy tmp modulePath then .ok (tmp, [])
  else
    match env modulePath with
    | none => .error (msgCannotFindModule modulePath)
    | some m => .ok (tmpSet tmp modulePath (storedVal m oid), [modulePath])

/-- One iteration of the `for (const route of context.routes)` loop
(lines 246-279): the mismatched-pairing throws, the guarded
load-resolve-register block, and the skip when `operationHandlers` is not a
string or the schema declares neither field. Returns the thrown error or the
updated memo table plus the registration made (if any), together with the
log of module paths `require`d. -/
def handleRoute (env : ModuleEnv) (oh : OperationHandlers) (tmp : TmpMap)
    (r : RouteEntry) : Except String (TmpMap × Option Reg) × List String :=
  if strTruthy (oIdOf r.schema) && !strTruthy r.schema.xEovOperationHandler then
    (.error (msgMissingHandler r), [])
  else if !strTruthy (oIdOf r.schema) && strTruthy r.schema.xEovOperationHandler then
    (.error (msgMissingId r), [])
  else
    match oIdOf r.schema, r.schema.xEovOperationHandler, oh with
    | some oid, some base, .strV dir =>
      if !oid.isEmpty && !base.isEmpty then
        match loadStep env tmp (pathJoin dir base) oid with
        | .error e => (.error e, [])
        | .ok (tmp', lds) =>
          match tmpGet tmp' (pathJoin dir base) with
          | some (some ns) =>
            match ns.get oid with
            | some f =>
              (.ok (tmp', some (jsToLower r.method, r.expressRoute, f)), lds)
            | none => (.error (msgHandlerNotFound oid (pathJoin dir base)), lds)
          | _ =>
            -- the memoized value is `undefined`: reading `[oId]` off it
            -- raises a TypeError before the line-273 check runs
            (.error (msgTypeError oid), lds)
      else (.ok (tmp, none), [])
    | _, _, _ => (.ok (tmp, none), [])

/-- The loop of `installOperationHandlers` over `context.routes`: threads the
memo table, collects registrations in route order, stops at the first throw.
The second component is the full `require` log (kept also across a throw, so
that load-counting statements cover aborted runs). -/
def ohLoop (env : ModuleEnv) (oh : OperationHandlers) :
    List RouteEntry → TmpMap → Except String (List Reg) × List String
  | [], _ => (.ok [], [])
  | r :: rs, tmp =>
    match handleRoute env oh tmp r with
    | (.error e, lds) => (.error e, lds)
    | (.ok (tmp', reg?), lds) =>
      match ohLoop env oh rs tmp' with
      | (res, lds') =>
        (res.map (fun l => reg?.toList ++ l), lds ++ lds')

/-- `installOperationHandlers` (lines 239-281): run the route loop starting
from the empty `tmpModules` table. -/
def installOperationHandlers (env : ModuleEnv) (oh : OperationHandlers)
    (routes : List RouteEntry) : Except String (List Reg) × List String :=
  ohLoop env oh routes []

/-- The route schema declares an operation identifier without a handler
module, or a handler module without an identifier — the two configurations
lines 249-258 reject. -/
def mismatchedPairing (r : RouteEntry) : Bool :=
  (strTruthy (oIdOf r.schema) && !strTruthy r.schema.xEovOperationHandler)
    || (!strTruthy (oIdOf r.schema) && strTruthy r.schema.xEovOperationHandler)

/-- `needle` occurs contiguously inside `hay`. -/
def strContains (needle hay : String) : Prop :=
  needle.toList <:+: hay.toList

instance (needle hay : String) : Decidable (strContains needle hay) :=
  List.decidableInfix needle.toList hay.toList

/-! Concrete instances used to exercise the definitions. -/

/-- A minimal well-formed options record: only `apiSpec` supplied. -/
def optsMinimal : OpenApiValidatorOpts := { apiSpec := true }

/-- The record the constructor produces from `optsMinimal`. -/
def optsMinimalBuilt : OpenApiValidatorOpts :=
  { apiSpec := true
    unknownFormats := none
    coerceTypes := some true
    validateRequests := some (.optsV ⟨some false⟩)
    validateResponses := some (.boolV false)
    validateSecurity := some (.optsV ⟨none⟩)
    securityHandlers := none
    multerOpts := none
    fileUploader := some (.rawV .objV)
    refParser := some ⟨.bundle⟩
    operationHandlers := some (.boolV false)
    validateFormats := some .fastV }

/-- An options record supplying both `securityHandlers` and
`validateSecurity`. -/
def optsConflict : OpenApiValidatorOpts :=
  { apiSpec := true
    securityHandlers := some .objV
    validateSecurity := some (.boolV true) }

/-- An options record passing `validateRequests: true` explicitly. -/
def optsExplicitTrue : OpenApiValidatorOpts :=
  { apiSpec := true, validateRequests := some (.boolV true) }

/-- An api document whose `components` object declares no
`securitySchemes`. -/
def docNoSchemes : ApiDoc := ⟨some ⟨none⟩⟩

/-- A `require` environment with no modules. -/
def envEmpty : ModuleEnv := fun _ => none

/-- A route declaring `operationId` but no `x-eov-operation-handler`. -/
def routeMismatched : RouteEntry :=
  { expressRoute := "/pets", method := "get",
    schema := { operationId := some "createPet" } }

/-- A module whose top level lacks `createPet` and that has no default
export. -/
def modNoDefault : HandlerModule :=
  { top := ⟨[("other", 1)]⟩, defaultExport := none }

/-- Environment resolving `handlers/pets` to `modNoDefault`. -/
def envNoDefault : ModuleEnv :=
  fun p => if p == "handlers/pets" then some modNoDefault else none

/-- A route naming operation `createPet` in handler module `pets`. -/
def routeCreatePet : RouteEntry :=
  { expressRoute := "/pets", method := "post",
    schema := { operationId := some "createPet",
                xEovOperationHandler := some "pets" } }

/-- A module whose top level and default export both lack `createPet`. -/
def modDefaultLacking : HandlerModule :=
  { top := ⟨[("other", 1)]⟩, defaultExport := some ⟨[("another", 2)]⟩ }

/-- Environment resolving `handlers/pets` to `modDefaultLacking`. -/
def envDefaultLacking : ModuleEnv :=
  fun p => if p == "handlers/pets" then some modDefaultLacking else none

/-- A module exporting `a` at top level and `b` only under its default
export. -/
def modShared : HandlerModule :=
  { top := ⟨[("a", 10)]⟩, defaultExport := some ⟨[("b", 20)]⟩ }

/-- Environment resolving `dir/m` to `modShared`. -/
def envShared : ModuleEnv :=
  fun p => if p == "dir/m" then some modShared else none

/-- First route into the shared module: operation `a`. -/
def routeA : RouteEntry :=
  { expressRoute := "/a", method := "get",
    schema := { operationId := some "a", xEovOperationHandler := some "m" } }

/-- Second route into the shared module: operation `b`. -/
def routeB : RouteEntry :=
  { expressRoute := "/b", method := "get",
    schema := { operationId := some "b", xEovOperationHandler := some "m" } }

/-- A module exporting `createPet` only under its default export. -/
def modDefaultOnly : HandlerModule :=
  { top := ⟨[]⟩, defaultExport := some ⟨[("createPet", 7)]⟩ }

/-- Environment resolving `handlers/pets` to `modDefaultOnly`. -/
def envDefaultOnly : ModuleEnv :=
  fun p => if p == "handlers/pets" then some modDefaultOnly else none

/-- A module exporting distinct handlers under `getPets` and `listPets`. -/
def modBothIds : HandlerModule :=
  { top := ⟨[("getPets", 3), ("listPets", 4)]⟩, defaultExport := none }

/-- Environment resolving `handlers/pets` to `modBothIds`. -/
def envBothIds : ModuleEnv :=
  fun p => if p == "handlers/pets" then some modBothIds else none

/-- A route declaring both `x-eov-operation-id` (`getPets`) and
`operationId` (`listPets`). -/
def routeBothIds : RouteEntry :=
  { expressRoute := "/pets", method := "GET",
    schema := { xEovOperationId := some "getPets",
                operationId := some "listPets",
                xEovOperationHandler := some "pets" } }


/-! Helper lemmas. -/

/-- `String.toList` distributes over append. -/
theorem strToList_append (s t : String) : (s ++ t).toList = s.toList ++ t.toList :=
  String.data_append s t

/-- Reading the memo table after an assignment. -/
theorem tmpGet_tmpSet (tmp : TmpMap) (k p : String) (v : Option Ns) :
    tmpGet (tmpSet tmp k v) p = if k == p then some v else tmpGet tmp p := by
  by_cases h : k = p
  · subst h; simp [tmpGet, tmpSet, List.find?]
  · have hb : (k == p) = false := beq_eq_false_iff_ne.mpr h
    simp [tmpGet, tmpSet, List.find?, hb]

/-- Truthiness of the memo table after an assignment. -/
theorem tmpTruthy_tmpSet (tmp : TmpMap) (k p : String) (v : Option Ns) :
    tmpTruthy (tmpSet tmp k v) p =
      if k == p then v.isSome else tmpTruthy tmp p := by
  unfold tmpTruthy
  rw [tmpGet_tmpSet]
  by_cases h : k = p
  · subst h; simp
    cases v <;> simp
  · have hb : (k == p) = false := beq_eq_false_iff_ne.mpr h
    simp [hb]

/-- A successful `loadStep` either reused a truthy memo entry (no load) or
`require`d the module exactly when the entry was not truthy. -/
theorem loadStep_ok (env : ModuleEnv) (tmp : TmpMap) (P oid : String)
    (tmp' : TmpMap) (lds : List String)
    (h : loadStep env tmp P oid = .ok (tmp', lds)) :
    (tmp' = tmp ∧ lds = []) ∨
      (tmpTruthy tmp P = false ∧ lds = [P] ∧
        ∃ m, env P = some m ∧ tmp' = tmpSet tmp P (storedVal m oid)) := by
  unfold loadStep at h
  split at h
  · left
    injection h with h1
    injection h1 with h2 h3
    exact ⟨h2.symm, h3.symm⟩
  · right
    rename_i hcond
    cases he : env P with
    | none => rw [he] at h; cases h
    | some m =>
      rw [he] at h
      injection h with h1
      injection h1 with h2 h3
      exact ⟨Bool.not_eq_true _ ▸ hcond, h3.symm, m, rfl, h2.symm⟩

/-- Structure of one route step: its `require` log is duplicate-free, only
non-memoized paths get `require`d, and on success every truthy memo entry
stays truthy and every path just loaded is memoized truthy. -/
theorem handleRoute_spec (env : ModuleEnv) (oh : OperationHandlers)
    (tmp : TmpMap) (r : RouteEntry) (res : Except String (TmpMap × Option Reg))
    (lds : List String) (h : handleRoute env oh tmp r = (res, lds)) :
    lds.Nodup ∧
      (∀ P ∈ lds, tmpTruthy tmp P = false) ∧
      (∀ tmp' x, res = .ok (tmp', x) →
        (∀ p, tmpTruthy tmp p = true → tmpTruthy tmp' p = true) ∧
        (∀ P ∈ lds, tmpTruthy tmp' P = true)) := by
  unfold handleRoute at h
  split at h
  · cases h; simp
  · split at h
    · cases h; simp
    · split at h
      · rename_i oid base dir heq1 heq2
        split at h
        · -- the guarded load-resolve-register block
          cases hls : loadStep env tmp (pathJoin dir base) oid with
          | error e =>
            rw [hls] at h
            cases h
            simp
          | ok p =>
            cases p with
            | mk tmp1 lds1 =>
              rw [hls] at h
              dsimp only at h
              rcases loadStep_ok env tmp (pathJoin dir base) oid tmp1 lds1 hls with
                ⟨rfl, rfl⟩ | ⟨hnt, rfl, m, hm, rfl⟩
              · -- memoized: nothing was required
                split at h
                · split at h
                  · cases h
                    refine ⟨by simp, by simp, ?_⟩
                    intro tmp2 x hx
                    cases hx
                    exact ⟨fun p hp => hp, by simp⟩
                  · cases h; simp
                · cases h; simp
              · -- fresh require of (pathJoin dir base)
                split at h
                · rename_i ns hget
                  split at h
                  · cases h
                    refine ⟨by simp, by simp [hnt], ?_⟩
                    intro tmp2 x hx
                    cases hx
                    constructor
                    · intro p hp
                      rw [tmpTruthy_tmpSet]
                      by_cases hkp : pathJoin dir base = p
                      · subst hkp; rw [hp] at hnt; cases hnt
                      · have hb : (pathJoin dir base == p) = false :=
                          beq_eq_false_iff_ne.mpr hkp
                        simp [hb, hp]
                    · intro P hP
                      simp at hP
                      subst hP
                      unfold tmpTruthy
                      rw [hget]
                  · cases h
                    refine ⟨by simp, by simp [hnt], ?_⟩
                    intro tmp2 x hx
                    cases hx
                · cases h
                  refine ⟨by simp, by simp [hnt], ?_⟩
                  intro tmp2 x hx
                  cases hx
        · cases h
          simp
      · cases h
        simp

/-- `Except.map` keeps the error status. -/
theorem isErr_map (f : α → β) (e : Except String α) :
    isErr (e.map f) = isErr e := by
  cases e <;> rfl

/-- Over any run of the route loop, the `require` log is duplicate-free and
mentions only paths that were not memoized at loop entry. -/
theorem ohLoop_loads (env : ModuleEnv) (oh : OperationHandlers) :
    ∀ (rs : List RouteEntry) (tmp : TmpMap),
      (ohLoop env oh rs tmp).2.Nodup ∧
        ∀ p ∈ (ohLoop env oh rs tmp).2, tmpTruthy tmp p = false := by
  intro rs
  induction rs with
  | nil => intro tmp; simp [ohLoop]
  | cons r rs ih =>
    intro tmp
    unfold ohLoop
    cases hhr : handleRoute env oh tmp r with
    | mk res lds =>
      obtain ⟨hnd, hfalse, hok⟩ := handleRoute_spec env oh tmp r res lds hhr
      cases res with
      | error e => exact ⟨hnd, hfalse⟩
      | ok v =>
        cases v with
        | mk tmp' reg? =>
          obtain ⟨hmono, hafter⟩ := hok tmp' reg? rfl
          obtain ⟨ihnd, ihfalse⟩ := ih tmp'
          dsimp only
          constructor
          · refine List.Nodup.append hnd ihnd ?_
            intro a ha ha'
            have h1 : tmpTruthy tmp' a = true := hafter a ha
            have h2 : tmpTruthy tmp' a = false := ihfalse a ha'
            rw [h1] at h2; cases h2
          · intro p hp
            rcases List.mem_append.mp hp with hp | hp
            · exact hfalse p hp
            · by_cases ht : tmpTruthy tmp p = true
              · have h1 := hmono p ht
                have h2 := ihfalse p hp
                rw [h1] at h2; cases h2
              · exact Bool.not_eq_true _ ▸ ht

/-- A route with a mismatched id/handler pairing makes its loop step throw. -/
theorem handleRoute_mismatch (env : ModuleEnv) (oh : OperationHandlers)
    (tmp : TmpMap) (r : RouteEntry) (h : mismatchedPairing r = true) :
    isErr (handleRoute env oh tmp r).1 = true := by
  unfold mismatchedPairing at h
  unfold handleRoute
  split
  · rfl
  · split
    · rfl
    · rename_i h1 h2
      rw [Bool.or_eq_true] at h
      rcases h with h | h
      · exact absurd h h1
      · exact absurd h h2

/-- A mismatched route anywhere in the list makes the whole loop throw. -/
theorem ohLoop_mismatch (env : ModuleEnv) (oh : OperationHandlers) :
    ∀ (rs : List RouteEntry) (tmp : TmpMap),
      rs.any mismatchedPairing = true →
      isErr (ohLoop env oh rs tmp).1 = true := by
  intro rs
  induction rs with
  | nil => intro tmp h; simp at h
  | cons r rs ih =>
    intro tmp h
    unfold ohLoop
    cases hhr : handleRoute env oh tmp r with
    | mk res lds =>
      cases res with
      | error e => rfl
      | ok v =>
        cases v with
        | mk tmp' reg? =>
          have hm : mismatchedPairing r = false := by
            by_contra hc
            rw [Bool.not_eq_false] at hc
            have := handleRoute_mismatch env oh tmp r hc
            rw [hhr] at this
            cases this
          rw [List.any_cons, hm, Bool.false_or] at h
          dsimp only
          rw [isErr_map]
          exact ih tmp' h

/-- `normalizeOptions` never touches `unknownFormats`. -/
theorem normalizeOptions_unknownFormats (o : OpenApiValidatorOpts) :
    (normalizeOptions o).unknownFormats = o.unknownFormats := by
  unfold normalizeOptions
  dsimp only
  split <;> split <;> rfl

/-- `normalizeOptions` never touches `validateRequests`. -/
theorem normalizeOptions_validateRequests (o : OpenApiValidatorOpts) :
    (normalizeOptions o).validateRequests = o.validateRequests := by
  unfold normalizeOptions
  dsimp only
  split <;> split <;> rfl

/-- `applyDefaults` never touches `unknownFormats` (line 37 is a comparison,
not an assignment). -/
theorem applyDefaults_unknownFormats (o : OpenApiValidatorOpts) :
    (applyDefaults o).unknownFormats = o.unknownFormats := rfl

/-- A successful construction returns exactly the normalized-and-defaulted
input record. -/
theorem construct_ok (o o' : OpenApiValidatorOpts)
    (hc : OpenApiValidator.construct o = .ok o') :
    o' = applyDefaults (normalizeOptions o) := by
  unfold OpenApiValidator.construct at hc
  cases hv : validateOptions o with
  | error e => rw [hv] at hc; cases hc
  | ok u => rw [hv] at hc; injection hc with h1; exact h1.symm

/-- C1: for every options record in which `unknownFormats` is null or
undefined, the defaulting step (line 37) performs a `===` comparison rather
than an assignment, so after a successful construction the stored options
still have `unknownFormats` null/undefined — the intended default of `true`
is never applied. -/
theorem unknownFormats_default_never_applied (o o' : OpenApiValidatorOpts)
    (h : o.unknownFormats = none)
    (hc : OpenApiValidator.construct o = .ok o') :
    o'.unknownFormats = none := by
  rw [construct_ok o o' hc, applyDefaults_unknownFormats,
    normalizeOptions_unknownFormats, h]

/-- C1 witness: constructing from the minimal options record leaves
`unknownFormats` absent. -/
theorem unknownFormats_default_never_applied_witness :
    optsMinimal.unknownFormats = none ∧ optsMinimalBuilt.unknownFormats = none :=
  ⟨rfl, unknownFormats_default_never_applied optsMinimal optsMinimalBuilt rfl rfl⟩

/-- C2: `installMiddleware` installs the pipeline in the fixed order
path-params, metadata, multipart, security, request validation, response
validation, operation handlers (every run is a sublist of that order), the
metadata middleware is always installed, and the first two installations are
always path-params then metadata — so metadata always precedes the security
and validation middlewares. -/
theorem installMiddleware_order_fixed (opts : OpenApiValidatorOpts) (doc : ApiDoc) :
    (installMiddleware opts doc).Sublist middlewareOrder ∧
      Mw.metadata ∈ installMiddleware opts doc ∧
      (installMiddleware opts doc).take 2 = [Mw.pathParams, Mw.metadata] := by
  unfold installMiddleware middlewareOrder
  cases h1 : fuTruthy opts.fileUploader <;>
    cases h2 : vsTruthy opts.validateSecurity
        && jsOptTruthy (securitySchemesOf doc) <;>
    cases h3 : vreqTruthy opts.validateRequests <;>
    cases h4 : vrespTruthy opts.validateResponses <;>
    cases h5 : ohTruthy opts.operationHandlers <;>
    simp
  all_goals decide

/-- C3: whenever `validateRequests` is omitted or the boolean `true`, a
successful construction normalizes it to an options object with
`allowUnknownQueryParameters` explicitly `false`, and the `RequestValidator`
is then constructed with `allowUnknownQueryParameters = false`. -/
theorem validateRequests_defaulted_allowUnknown_false (o o' : OpenApiValidatorOpts)
    (h : o.validateRequests = none ∨ o.validateRequests = some (.boolV true))
    (hc : OpenApiValidator.construct o = .ok o') :
    o'.validateRequests = some (.optsV ⟨some false⟩) ∧
      (installRequestValidationMiddleware o').allowUnknownQueryParameters
        = some false := by
  have hvr : o'.validateRequests = some (.optsV ⟨some false⟩) := by
    rw [construct_ok o o' hc]
    show normalizeValidateRequests
      (some ((normalizeOptions o).validateRequests.getD (.boolV true))) = _
    rw [normalizeOptions_validateRequests]
    rcases h with h | h <;> rw [h] <;> rfl
  refine ⟨hvr, ?_⟩
  unfold installRequestValidationMiddleware
  dsimp only
  rw [hvr]
  rfl

/-- C3 witness: passing `validateRequests: true` explicitly yields the
normalized record and a validator with unknown query parameters rejected. -/
theorem validateRequests_defaulted_allowUnknown_false_witness :
    optsMinimalBuilt.validateRequests
        = some (.optsV ⟨some false⟩) ∧
      (installRequestValidationMiddleware optsMinimalBuilt).allowUnknownQueryParameters
        = some false :=
  ⟨(validateRequests_defaulted_allowUnknown_false optsExplicitTrue optsMinimalBuilt
      (Or.inr rfl) rfl).1,
   (validateRequests_defaulted_allowUnknown_false optsExplicitTrue optsMinimalBuilt
      (Or.inr rfl) rfl).2⟩

/-- C4: if any route declares an operation identifier without
`x-eov-operation-handler`, or a handler without any identifier,
`installOperationHandlers` — the install-time routine — throws. -/
theorem mismatched_pairing_install_error (env : ModuleEnv) (oh : OperationHandlers)
    (routes : List RouteEntry) (h : routes.any mismatchedPairing = true) :
    isErr (installOperationHandlers env oh routes).1 = true := by
  unfold installOperationHandlers
  exact ohLoop_mismatch env oh routes [] h

/-- C4 witness: a route with `operationId` but no handler reference makes
installation throw. -/
theorem mismatched_pairing_install_error_witness :
    [routeMismatched].any mismatchedPairing = true ∧
      isErr (installOperationHandlers envEmpty (.strV "handlers")
        [routeMismatched]).1 = true :=
  ⟨by decide,
   mismatched_pairing_install_error envEmpty (.strV "handlers") [routeMismatched]
     (by decide)⟩

/-- The configuration error of line 273-277 names the operation id. -/
theorem strContains_parts (pre x post : String) :
    strContains x (pre ++ x ++ post) := by
  unfold strContains
  rw [strToList_append, strToList_append]
  exact List.infix_append _ _ _

/-- `msgHandlerNotFound` split around its first operation-id occurrence. -/
theorem msgHandlerNotFound_id_part (oid p : String) :
    msgHandlerNotFound oid p =
      "Could not find 'x-eov-operation-handler' with id " ++ oid ++
        (" in module '" ++ p ++ "'. Make sure operation '" ++ oid ++
          "' defined in your API spec exists as a handler function in '"
          ++ p ++ "'.") := by
  simp [msgHandlerNotFound, String.append_assoc]

/-- `msgHandlerNotFound` split around its first module-path occurrence. -/
theorem msgHandlerNotFound_path_part (oid p : String) :
    msgHandlerNotFound oid p =
      ("Could not find 'x-eov-operation-handler' with id " ++ oid
          ++ " in module '") ++ p ++
        ("'. Make sure operation '" ++ oid ++
          "' defined in your API spec exists as a handler function in '"
          ++ p ++ "'.") := by
  simp [msgHandlerNotFound, String.append_assoc]

/-- The line-273 error message contains the operation id and the module
path. -/
theorem msgHandlerNotFound_contains (oid p : String) :
    strContains oid (msgHandlerNotFound oid p) ∧
      strContains p (msgHandlerNotFound oid p) := by
  constructor
  · rw [msgHandlerNotFound_id_part]
    exact strContains_parts _ _ _
  · rw [msgHandlerNotFound_path_part]
    exact strContains_parts _ _ _

/-- A single fresh route resolves to the post-fallback memoized value and
registers, or throws, accordingly. -/
theorem ohSingle (env : ModuleEnv) (dir : String) (r : RouteEntry)
    (oid base : String) (m : HandlerModule)
    (h1 : oIdOf r.schema = some oid) (h2 : r.schema.xEovOperationHandler = some base)
    (h3 : oid.isEmpty = false) (h4 : base.isEmpty = false)
    (h5 : env (pathJoin dir base) = some m) :
    (installOperationHandlers env (.strV dir) [r]).1 =
      match storedVal m oid with
      | some ns =>
        match ns.get oid with
        | some f => .ok [(jsToLower r.method, r.expressRoute, f)]
        | none => .error (msgHandlerNotFound oid (pathJoin dir base))
      | none => .error (msgTypeError oid) := by
  have htmp : tmpTruthy ([] : TmpMap) (pathJoin dir base) = false := rfl
  have hget : tmpGet (tmpSet ([] : TmpMap) (pathJoin dir base) (storedVal m oid))
      (pathJoin dir base) = some (storedVal m oid) := by
    rw [tmpGet_tmpSet]; simp
  cases hsv : storedVal m oid with
  | none =>
    simp [installOperationHandlers, ohLoop, handleRoute, loadStep, strTruthy,
      h1, h2, h3, h4, h5, htmp, hsv ▸ hget, hsv]
  | some ns =>
    cases hg : ns.get oid with
    | none =>
      simp [installOperationHandlers, ohLoop, handleRoute, loadStep, strTruthy,
        h1, h2, h3, h4, h5, htmp, hsv ▸ hget, hsv, hg]
    | some f =>
      simp [installOperationHandlers, ohLoop, handleRoute, loadStep, strTruthy,
        h1, h2, h3, h4, h5, htmp, hsv ▸ hget, hsv, hg, Except.map]

/-- C5 counterexample: the module for `handlers/pets` loads, its top level
lacks `createPet` and it has no default export; after the fallback the
memoized value is `undefined`, so line 272 raises a TypeError whose message
does not contain the module path — refuting the claim that every such
failure throws an Error naming both the identifier and the module path. -/
theorem handlerNotFound_message_counterexample :
    modNoDefault.top.get "createPet" = none ∧
    modNoDefault.defaultExport = none ∧
    (installOperationHandlers envNoDefault (.strV "handlers") [routeCreatePet]).1
        = .error (msgTypeError "createPet") ∧
    ¬ strContains (pathJoin "handlers" "pets") (msgTypeError "createPet") :=
  ⟨rfl, rfl, rfl, by decide⟩

/-- C5 (amended): when the post-fallback resolution yields an object that
contains no property named by the operation identifier,
`installOperationHandlers` throws the configuration Error whose message
contains both the missing identifier and the module path (if instead the
resolution yields `undefined` — no default export — the call fails with a
TypeError that does not name the module path). -/
theorem handlerNotFound_error_names_id_and_path (env : ModuleEnv) (dir : String)
    (r : RouteEntry) (oid base : String) (m : HandlerModule) (ns : Ns)
    (h1 : oIdOf r.schema = some oid) (h2 : r.schema.xEovOperationHandler = some base)
    (h3 : oid.isEmpty = false) (h4 : base.isEmpty = false)
    (h5 : env (pathJoin dir base) = some m)
    (h6 : storedVal m oid = some ns) (h7 : ns.get oid = none) :
    (installOperationHandlers env (.strV dir) [r]).1
        = .error (msgHandlerNotFound oid (pathJoin dir base)) ∧
      strContains oid (msgHandlerNotFound oid (pathJoin dir base)) ∧
      strContains (pathJoin dir base) (msgHandlerNotFound oid (pathJoin dir base)) := by
  refine ⟨?_, (msgHandlerNotFound_contains oid (pathJoin dir base)).1,
    (msgHandlerNotFound_contains oid (pathJoin dir base)).2⟩
  rw [ohSingle env dir r oid base m h1 h2 h3 h4 h5, h6]
  dsimp only
  rw [h7]

/-- C5 witness: a module whose default export lacks `createPet` produces the
configuration Error naming id and path. -/
theorem handlerNotFound_error_names_id_and_path_witness :
    (installOperationHandlers envDefaultLacking (.strV "handlers")
          [routeCreatePet]).1
        = .error (msgHandlerNotFound "createPet" (pathJoin "handlers" "pets")) ∧
      strContains "createPet"
        (msgHandlerNotFound "createPet" (pathJoin "handlers" "pets")) ∧
      strContains (pathJoin "handlers" "pets")
        (msgHandlerNotFound "createPet" (pathJoin "handlers" "pets")) :=
  handlerNotFound_error_names_id_and_path envDefaultLacking "handlers"
    routeCreatePet "createPet" "pets" modDefaultLacking ⟨[("another", 2)]⟩
    rfl rfl rfl rfl rfl rfl rfl

/-- C6 counterexample: two routes share the module `dir/m`; the first
(operation `a`) finds its handler at top level, memoizing the module object.
The second (operation `b`) has no top-level export `b`, and `b` exists under
the module's default export — yet the run throws instead of falling back and
registering it, refuting the claim that resolution always falls back to the
default export when the top-level lookup fails. -/
theorem memoized_fallback_counterexample :
    modShared.top.get "b" = none ∧
    modShared.defaultExport.bind (fun ns => ns.get "b") = some 20 ∧
    (installOperationHandlers envShared (.strV "dir") [routeA, routeB]).1
        = .error (msgHandlerNotFound "b" (pathJoin "dir" "m")) :=
  ⟨rfl, rfl, rfl⟩

/-- C6 (amended): for the route that first loads its handler module,
resolution tries the top-level export named by the operation identifier
first and, only when that is absent, the identifier under the module's
default export (the composite `storedVal` lookup); the function found is the
one registered. Later routes reusing the memoized module consult only the
memoized object, with no renewed fallback. -/
theorem first_load_resolves_direct_then_default (env : ModuleEnv) (dir : String)
    (r : RouteEntry) (oid base : String) (m : HandlerModule) (f : Nat)
    (h1 : oIdOf r.schema = some oid) (h2 : r.schema.xEovOperationHandler = some base)
    (h3 : oid.isEmpty = false) (h4 : base.isEmpty = false)
    (h5 : env (pathJoin dir base) = some m)
    (h6 : (storedVal m oid).bind (fun ns => ns.get oid) = some f) :
    (installOperationHandlers env (.strV dir) [r]).1
        = .ok [(jsToLower r.method, r.expressRoute, f)] := by
  obtain ⟨ns, hns, hg⟩ := Option.bind_eq_some.mp h6
  rw [ohSingle env dir r oid base m h1 h2 h3 h4 h5, hns]
  dsimp only
  rw [hg]

/-- C6 witness: a module exporting `createPet` only under its default export
registers that handler via the fallback on first load. -/
theorem first_load_resolves_direct_then_default_witness :
    (installOperationHandlers envDefaultOnly (.strV "handlers")
        [routeCreatePet]).1 = .ok [("post", "/pets", 7)] := by
  exact first_load_resolves_direct_then_default envDefaultOnly "handlers"
    routeCreatePet "createPet" "pets" modDefaultOnly 7 rfl rfl rfl rfl rfl rfl

/-- C7: within one `installOperationHandlers` call, each distinct module
path is `require`d at most once — the `require` log of any run (also a run
that ends in a throw) has no duplicates; later routes with the same path hit
the truthy memo entry instead of loading again. -/
theorem module_loaded_at_most_once (env : ModuleEnv) (oh : OperationHandlers)
    (routes : List RouteEntry) :
    (installOperationHandlers env oh routes).2.Nodup := by
  unfold installOperationHandlers
  exact (ohLoop_loads env oh routes []).1

/-- `validateOptions` throws on either pair of conflicting options. -/
theorem validateOptions_conflict (o : OpenApiValidatorOpts)
    (h : (jsOptTruthy o.securityHandlers && vsTruthy o.validateSecurity)
          || (jsOptTruthy o.multerOpts && fuTruthy o.fileUploader) = true) :
    isErr (validateOptions o) = true := by
  unfold validateOptions
  split
  · rfl
  · split
    · rfl
    · split
      · rfl
      · split
        · rfl
        · split
          · rfl
          · rename_i h1 h2 h3 h4 h5
            rw [Bool.or_eq_true] at h
            rcases h with h | h
            · exact absurd (by simpa using h) h3
            · exact absurd (by simpa using h) h5

/-- C8: an options record supplying both `securityHandlers` and
`validateSecurity` (both truthy), or both `multerOpts` and `fileUploader`
(both truthy), makes the constructor throw at construction time. -/
theorem conflicting_options_construct_error (o : OpenApiValidatorOpts)
    (h : (jsOptTruthy o.securityHandlers && vsTruthy o.validateSecurity)
          || (jsOptTruthy o.multerOpts && fuTruthy o.fileUploader) = true) :
    isErr (OpenApiValidator.construct o) = true := by
  unfold OpenApiValidator.construct
  have hv := validateOptions_conflict o h
  cases he : validateOptions o with
  | error e => rfl
  | ok u => rw [he] at hv; cases hv

/-- C8 witness: the record with both `securityHandlers` and
`validateSecurity` throws. -/
theorem conflicting_options_construct_error_witness :
    ((jsOptTruthy optsConflict.securityHandlers
          && vsTruthy optsConflict.validateSecurity)
        || (jsOptTruthy optsConflict.multerOpts
          && fuTruthy optsConflict.fileUploader)) = true ∧
      isErr (OpenApiValidator.construct optsConflict) = true :=
  ⟨rfl, conflicting_options_construct_error optsConflict rfl⟩

/-- C9: when the document declares no `components.securitySchemes`, the
security middleware is never installed — for any options record, including
ones with `validateSecurity` enabled. -/
theorem no_securitySchemes_no_security_middleware (opts : OpenApiValidatorOpts)
    (doc : ApiDoc) (h : securitySchemesOf doc = none) :
    Mw.security ∉ installMiddleware opts doc := by
  unfold installMiddleware
  rw [h]
  cases h1 : fuTruthy opts.fileUploader <;>
    cases h3 : vreqTruthy opts.validateRequests <;>
    cases h4 : vrespTruthy opts.validateResponses <;>
    cases h5 : ohTruthy opts.operationHandlers <;>
    simp [jsOptTruthy]

/-- C9 witness: the constructed default options (validateSecurity enabled)
against a document without security schemes install no security
middleware. -/
theorem no_securitySchemes_no_security_middleware_witness :
    securitySchemesOf docNoSchemes = none ∧
      vsTruthy optsMinimalBuilt.validateSecurity = true ∧
      Mw.security ∉ installMiddleware optsMinimalBuilt docNoSchemes :=
  ⟨rfl, rfl,
   no_securitySchemes_no_security_middleware optsMinimalBuilt docNoSchemes rfl⟩

/-- C10: when a route declares both `x-eov-operation-id` and `operationId`,
the `||` on line 247 picks the extension value, and the handler registered
is the one stored under the `x-eov-operation-id` name. -/
theorem xEovOperationId_precedence (env : ModuleEnv) (dir : String)
    (r : RouteEntry) (a b base : String) (m : HandlerModule) (fa : Nat)
    (h1 : r.schema.xEovOperationId = some a) (h2 : a.isEmpty = false)
    (_hb : r.schema.operationId = some b)
    (h4 : r.schema.xEovOperationHandler = some base) (h5 : base.isEmpty = false)
    (h6 : env (pathJoin dir base) = some m)
    (h7 : m.top.get a = some fa) :
    (installOperationHandlers env (.strV dir) [r]).1
        = .ok [(jsToLower r.method, r.expressRoute, fa)] := by
  have hid : oIdOf r.schema = some a := by
    unfold oIdOf
    rw [h1]
    simp [strTruthy, h2]
  rw [ohSingle env dir r a base m hid h4 h2 h5 h6]
  unfold storedVal
  rw [h7]
  simp [h7]

/-- C10 witness: with `getPets ↦ 3` and `listPets ↦ 4` both exported, the
route declaring both identifiers registers handler 3 (the extension id). -/
theorem xEovOperationId_precedence_witness :
    (installOperationHandlers envBothIds (.strV "handlers") [routeBothIds]).1
        = .ok [("get", "/pets", 3)] ∧
      modBothIds.top.get "listPets" = some 4 :=
  by
  refine ⟨?_, rfl⟩
  exact xEovOperationId_precedence envBothIds "handlers" routeBothIds
    "getPets" "listPets" "pets" modBothIds 3 rfl rfl rfl rfl rfl rfl rfl
